import Mathlib

/-!
The coordinator of `async-motor.h`: a shallow embedding of class `async_motor_t`.

* `double` values (positions, the command parameter, the distance threshold)
  are rationals; `std::abs` is the absolute value.
* `std::chrono::steady_clock::time_point` is an integer count of nanoseconds,
  `std::chrono::milliseconds` an integer count of milliseconds, and
  `duration_cast<milliseconds>` is integer division truncating towards zero.
* Every mutex-protected member of the class is a field of `State`; the
  interface mutex `m_mtx_interface_sync` is the Boolean "is locked".
* The pure virtual driver functions are the environment: what
  `get_position_impl` returns and what `steady_clock::now()` reads are inputs
  of a loop iteration, and the calls made to the driver are an output of it.
* One iteration of the loop in `run` and one call of a public member function
  are the steps of an execution.  A call that reaches a condition-variable
  wait whose predicate is false ends as `blocked`, with the state it has
  reached at that wait.
-/

namespace async_motor_t

/-- Values of `enum class status_t`. -/
inductive status_t
  | idle
  | moving
  | move_ok
  | error
  deriving DecidableEq

/-- Values of `enum class command_t`. -/
inductive command_t
  | none
  | move
  | pause
  | resume
  | quit
  deriving DecidableEq

/-- Values of `enum exception_t::error_t`. -/
inductive error_t
  | move_timeout
  | interface_sync_error
  | status_error
  | unknown_error
  deriving DecidableEq

/-- Members of `class exception_t`. The member `m_error` has no initialiser, so
a value that was never assigned is `Option.none`. -/
structure exception_t where
  m_error : Option error_t
  m_string : String
  deriving DecidableEq

/-- The constructor `exception_t(error_t err)` (a structure and a function of
one name cannot coexist, hence `ctor`): four `if` statements assign
`m_string`; no statement assigns `m_error`. -/
def exception_t.ctor (err : error_t) : exception_t :=
  let m_string := ""
  let m_string := if err = error_t.move_timeout then "Move Timeout" else m_string
  let m_string := if err = error_t.interface_sync_error then "Interface Sync Error" else m_string
  let m_string := if err = error_t.status_error then "Status Error" else m_string
  let m_string := if err = error_t.unknown_error then "Unknown Error" else m_string
  { m_error := Option.none, m_string := m_string }

/-- The member function `get_error()`: returns `m_error`; `Option.none` is the
read of a member that was never assigned. -/
def exception_t.get_error (e : exception_t) : Option error_t :=
  e.m_error

/-- The member function `what()`: returns the characters of `m_string`. -/
def exception_t.what (e : exception_t) : String :=
  e.m_string

/-- Data members of `async_motor_t` (the thread handle and the condition
variables carry no value). -/
structure State where
  m_mtx_interface_sync : Bool
  m_command : command_t
  m_command_param : ℚ
  m_status : status_t
  m_error : exception_t
  m_paused : Bool
  m_target_position : ℚ
  m_actual_position : ℚ
  m_distance_threshold : ℚ
  m_command_begin_time_point : ℤ
  m_timeout_threshold : ℤ
  m_loop_wait_time : ℤ
  deriving DecidableEq

/-- The constructor `async_motor_t(time_loop_wait, timeout_moving,
distance_threshold)` together with the default member initialisers. -/
def State.init (time_loop_wait timeout_moving : ℤ) (distance_threshold : ℚ) : State :=
  { m_mtx_interface_sync := false
    m_command := command_t.none
    m_command_param := 0
    m_status := status_t.idle
    m_error := exception_t.ctor error_t.unknown_error
    m_paused := false
    m_target_position := 0
    m_actual_position := 0
    m_distance_threshold := distance_threshold
    m_command_begin_time_point := 0
    m_timeout_threshold := timeout_moving
    m_loop_wait_time := time_loop_wait }

/-- How a call of a public member function ends, with the coordinator state at
that point: it returned, it threw `e`, it is blocked at a wait, or it performed
an operation whose behaviour is undefined. -/
inductive outcome
  | returned (s : State)
  | raised (e : exception_t) (s : State)
  | blocked (s : State)
  | undefined (s : State)
  deriving DecidableEq

/-- The coordinator state at the end of a call. -/
def outcome.state : outcome → State
  | outcome.returned s => s
  | outcome.raised _ s => s
  | outcome.blocked s => s
  | outcome.undefined s => s

/-- The exception a call threw, if any. -/
def outcome.exception : outcome → Option exception_t
  | outcome.raised e _ => some e
  | _ => Option.none

/-- The private `check_error_and_throw()`: the exception thrown, if any. -/
def check_error_and_throw (s : State) : Option exception_t :=
  if s.m_status = status_t.error then some s.m_error else Option.none

/-- The private `check_not_idle_and_throw()`: the exception thrown, if any. -/
def check_not_idle_and_throw (s : State) : Option exception_t :=
  if s.m_status ≠ status_t.idle then
    some (exception_t.ctor error_t.interface_sync_error)
  else Option.none

/-- The public `move_to_async(target_pos)`. -/
def move_to_async (target_pos : ℚ) (s : State) : outcome :=
  match check_error_and_throw s with
  | some e => outcome.raised e s
  | Option.none =>
    match check_not_idle_and_throw s with
    | some e => outcome.raised e s
    | Option.none =>
      if s.m_command = command_t.none then
        outcome.returned { s with m_command := command_t.move, m_command_param := target_pos }
      else outcome.blocked s

/-- The public `wait_for_moving_done()`. -/
def wait_for_moving_done (s : State) : outcome :=
  if s.m_status ≠ status_t.moving ∧ s.m_status ≠ status_t.idle then
    if s.m_status ≠ status_t.move_ok then
      if s.m_status = status_t.error then outcome.raised s.m_error s
      else outcome.raised (exception_t.ctor error_t.unknown_error) s
    else outcome.returned { s with m_status := status_t.idle }
  else outcome.blocked s

/-- The public `pause()`: the check, the publication of the command, then the
wait for `m_paused`. -/
def pause (s : State) : outcome :=
  match check_error_and_throw s with
  | some e => outcome.raised e s
  | Option.none =>
    if s.m_command = command_t.none then
      let s1 := { s with m_command := command_t.pause }
      if s1.m_paused then outcome.returned s1 else outcome.blocked s1
    else outcome.blocked s

/-- The public `resume()`: the check, the publication of the command, then the
wait for `!m_paused`. -/
def resume (s : State) : outcome :=
  match check_error_and_throw s with
  | some e => outcome.raised e s
  | Option.none =>
    if s.m_command = command_t.none then
      let s1 := { s with m_command := command_t.resume }
      if !s1.m_paused then outcome.returned s1 else outcome.blocked s1
    else outcome.blocked s

/-- The public `get_actual_position()`. -/
def get_actual_position (s : State) : ℚ :=
  s.m_actual_position

/-- The public `get_target_position()`. -/
def get_target_position (s : State) : ℚ :=
  s.m_target_position

/-- The public `require_async_move_interface()`: `lock()` waits while the
mutex is held. -/
def require_async_move_interface (s : State) : outcome :=
  if s.m_mtx_interface_sync then outcome.blocked s
  else outcome.returned { s with m_mtx_interface_sync := true }

/-- The public `release_async_move_interface()`: the status is written first,
then the mutex is unlocked; `unlock()` of a `std::mutex` that is not held has
undefined behaviour. -/
def release_async_move_interface (s : State) : outcome :=
  let s1 := { s with m_status := status_t.idle }
  if s1.m_mtx_interface_sync then
    outcome.returned { s1 with m_mtx_interface_sync := false }
  else outcome.undefined s1

/-- A call the worker makes to one of the pure virtual driver functions. -/
inductive driver_call
  | get_position_impl
  | move_to_impl (pos : ℚ)
  | pause_impl
  deriving DecidableEq

/-- What one iteration of the loop in `run` reads from its environment: the
value `get_position_impl()` returns, the clock reading of
`steady_clock::now()` in the command dispatch, and the clock reading of
`steady_clock::now()` in the timeout check. -/
structure tick_input where
  position : ℚ
  now_dispatch : ℤ
  now_check : ℤ
  deriving DecidableEq

/-- State, driver calls (in order) and "the loop was left by `break`" after a
part of a loop iteration. -/
structure tick_result where
  state : State
  calls : List driver_call
  quit : Bool
  deriving DecidableEq

/-- The literal `1` that the arrival check of `run` compares against. -/
def arrival_threshold : ℚ := 1

/-- Nanoseconds to whole milliseconds, as
`std::chrono::duration_cast<std::chrono::milliseconds>` does it. -/
def duration_cast_milliseconds (d : ℤ) : ℤ :=
  Int.tdiv d 1000000

/-- The `if`/`else if` chain of `run` that dispatches the command taken from
the slot; `now` is what `steady_clock::now()` reads there. -/
def dispatch (command : command_t) (command_param : ℚ) (now : ℤ) (s : State) : tick_result :=
  match command with
  | command_t.move =>
    let s1 := { s with m_target_position := command_param }
    let paused := s1.m_paused
    if !paused then
      let s2 := { s1 with m_command_begin_time_point := now }
      { state := { s2 with m_status := status_t.moving }
        calls := [driver_call.move_to_impl s2.m_target_position]
        quit := false }
    else
      { state := { s1 with m_status := status_t.moving }, calls := [], quit := false }
  | command_t.pause =>
    { state := { s with m_paused := true }, calls := [driver_call.pause_impl], quit := false }
  | command_t.resume =>
    let s1 := { s with m_command_begin_time_point := now }
    { state := { s1 with m_paused := false }
      calls := [driver_call.move_to_impl s1.m_command_param]
      quit := false }
  | command_t.quit => { state := s, calls := [], quit := true }
  | command_t.none => { state := s, calls := [], quit := false }

/-- The last block of a loop iteration of `run`: the arrival check and the
timeout check, on the position just read from the driver. -/
def check_arrival (actual_position : ℚ) (now : ℤ) (s : State) : State :=
  if s.m_status = status_t.moving ∧ ¬ s.m_paused = true then
    if |s.m_target_position - actual_position| < arrival_threshold then
      { s with m_status := status_t.move_ok }
    else
      let duration_ms := duration_cast_milliseconds (now - s.m_command_begin_time_point)
      if duration_ms > s.m_timeout_threshold then
        { s with m_status := status_t.error, m_error := exception_t.ctor error_t.move_timeout }
      else s
  else s

/-- One iteration of the `while (1)` loop of `run`: take the command out of the
slot, dispatch it, read the position from the driver and cache it, check
arrival and timeout. (`wait_for` returns when its predicate holds or when
`m_loop_wait_time` has passed; the iteration goes on in both cases.) -/
def run_iteration (inp : tick_input) (s : State) : tick_result :=
  let command := s.m_command
  let command_param := s.m_command_param
  let s1 := { s with m_command := command_t.none }
  let d := dispatch command command_param inp.now_dispatch s1
  if d.quit then d
  else
    let actual_position := inp.position
    let s2 := { d.state with m_actual_position := actual_position }
    { state := check_arrival actual_position inp.now_check s2
      calls := d.calls ++ [driver_call.get_position_impl]
      quit := false }

/-- A step of an execution: one loop iteration of the worker, or one call of a
public member function. -/
inductive action
  | tick (inp : tick_input)
  | move_to_async (target_pos : ℚ)
  | wait_for_moving_done
  | pause
  | resume
  | get_actual_position
  | get_target_position
  | require_async_move_interface
  | release_async_move_interface
  deriving DecidableEq

/-- The coordinator state after a step: the state in which the loop iteration
ends, or the state in which the call returns, throws or blocks (for a release
of a lock that is not held, the state the call has written before the unlock). -/
def step (s : State) (a : action) : State :=
  match a with
  | action.tick inp => (run_iteration inp s).state
  | action.move_to_async target_pos => (move_to_async target_pos s).state
  | action.wait_for_moving_done => (wait_for_moving_done s).state
  | action.pause => (pause s).state
  | action.resume => (resume s).state
  | action.get_actual_position => s
  | action.get_target_position => s
  | action.require_async_move_interface => (require_async_move_interface s).state
  | action.release_async_move_interface => (release_async_move_interface s).state

/-- The coordinator state after a sequence of steps. -/
def run_actions (s : State) (acts : List action) : State :=
  acts.foldl step s

/-- The coordinator state after consecutive loop iterations of the worker with
no call of a member function in between. -/
def run_ticks (s : State) (inps : List tick_input) : State :=
  inps.foldl (fun st inp => (run_iteration inp st).state) s

/-- The coordinator built with poll interval 100 ms, timeout 1000 ms and
distance threshold 1 (the values of `test.cc`), after `move_to_async(50)`, a
loop iteration at time 0 and a loop iteration 1001 ms later, the driver
reporting position 0 both times. -/
def timed_out_state : State :=
  run_actions (State.init 100 1000 1)
    [action.move_to_async 50, action.tick ⟨0, 0, 0⟩, action.tick ⟨0, 0, 1001000000⟩]

/-- The coordinator of `test.cc` after `pause()`, the loop iteration that
dispatches `pause`, `move_to_async(50)`, and the worker taking `move` out of
the slot. -/
def paused_state : State :=
  { run_actions (State.init 100 1000 1)
      [action.pause, action.tick ⟨0, 0, 0⟩, action.move_to_async 50] with
    m_command := command_t.none }

/-- The coordinator built with distance threshold 1/2, after `move_to_async(0)`
and a loop iteration in which the driver reports position 5. -/
def half_threshold_state : State :=
  run_actions (State.init 100 1000 (1 / 2))
    [action.move_to_async 0, action.tick ⟨5, 0, 0⟩]

/-- The coordinator of `test.cc` after `move_to_async(50)` and a loop iteration
in which the driver reports position 99/2. -/
def arrived_state : State :=
  run_actions (State.init 100 1000 1)
    [action.move_to_async 50, action.tick ⟨99 / 2, 0, 0⟩]

/-- The coordinator of `test.cc` after `move_to_async(50)`, a loop iteration
with the driver at 0, and `pause()`: the status is `moving` and the slot holds
`pause`. -/
def pause_pending_state : State :=
  run_actions (State.init 100 1000 1)
    [action.move_to_async 50, action.tick ⟨0, 0, 0⟩, action.pause]

theorem timed_out_state_eq :
    timed_out_state =
      { State.init 100 1000 1 with
        m_command_param := 50
        m_status := status_t.error
        m_error := exception_t.ctor error_t.move_timeout
        m_target_position := 50 } := by
  simp [timed_out_state, run_actions, step, State.init, move_to_async, check_error_and_throw,
    check_not_idle_and_throw, run_iteration, dispatch, check_arrival, outcome.state,
    arrival_threshold, duration_cast_milliseconds]
  decide

theorem paused_state_eq :
    paused_state =
      { State.init 100 1000 1 with
        m_command_param := 50
        m_paused := true } := by
  simp [paused_state, run_actions, step, State.init, move_to_async, check_error_and_throw,
    check_not_idle_and_throw, run_iteration, dispatch, check_arrival, outcome.state,
    pause]

theorem half_threshold_state_eq :
    half_threshold_state =
      { State.init 100 1000 (1 / 2) with
        m_status := status_t.moving
        m_actual_position := 5 } := by
  simp [half_threshold_state, run_actions, step, State.init, move_to_async,
    check_error_and_throw, check_not_idle_and_throw, run_iteration, dispatch, check_arrival,
    outcome.state, arrival_threshold, duration_cast_milliseconds]

theorem arrived_state_eq :
    arrived_state =
      { State.init 100 1000 1 with
        m_command_param := 50
        m_status := status_t.move_ok
        m_target_position := 50
        m_actual_position := 99 / 2 } := by
  simp [arrived_state, run_actions, step, State.init, move_to_async, check_error_and_throw,
    check_not_idle_and_throw, run_iteration, dispatch, check_arrival, outcome.state,
    arrival_threshold]
  norm_num [abs_lt]

theorem pause_pending_state_eq :
    pause_pending_state =
      { State.init 100 1000 1 with
        m_command := command_t.pause
        m_command_param := 50
        m_status := status_t.moving
        m_target_position := 50 } := by
  simp [pause_pending_state, run_actions, step, State.init, move_to_async,
    check_error_and_throw, check_not_idle_and_throw, run_iteration, dispatch, check_arrival,
    outcome.state, arrival_threshold, duration_cast_milliseconds, pause]

/-- C8, evaluated on the code: for every error kind `e` the exception built by
`exception_t(e)` carries the matching message in `what()`, but its member
`m_error` is never assigned, so `get_error()` does not return `e`. -/
theorem exception_t_ctor_what_and_get_error (e : error_t) :
    (exception_t.ctor e).what =
        (match e with
          | error_t.move_timeout => "Move Timeout"
          | error_t.interface_sync_error => "Interface Sync Error"
          | error_t.status_error => "Status Error"
          | error_t.unknown_error => "Unknown Error") ∧
      (exception_t.ctor e).get_error = Option.none ∧
      (exception_t.ctor e).get_error ≠ some e := by
  cases e <;> simp [exception_t.ctor, exception_t.what, exception_t.get_error]

/-! ## `move_to_async` -/

/-- C1 as stated fails: in the state `timed_out_state`, whose status is
`error`, `move_to_async(0)` throws the latched `move_timeout` exception, which
is not the `interface_sync_error` exception. -/
theorem move_to_async_error_state_not_interface_sync :
    timed_out_state.m_status = status_t.error ∧
      move_to_async 0 timed_out_state =
        outcome.raised (exception_t.ctor error_t.move_timeout) timed_out_state ∧
      (move_to_async 0 timed_out_state).exception ≠
        some (exception_t.ctor error_t.interface_sync_error) := by
  rw [timed_out_state_eq]
  refine ⟨rfl, ?_, ?_⟩
  · simp [move_to_async, check_error_and_throw]
  · simp [move_to_async, check_error_and_throw, outcome.exception]
    decide

/-- C1 amended: for every state and target, `move_to_async(target)` throws the
`interface_sync_error` exception when the status is `moving` or `move_ok`, and
throws the latched exception `m_error` when the status is `error`; in all three
cases the state (command slot and command parameter included) is unchanged.
When the status is `idle` and the slot is empty it returns normally and leaves
the slot holding `move` with parameter `target`, nothing else changed. -/
theorem move_to_async_contract (s : State) (target : ℚ) :
    (s.m_status = status_t.moving ∨ s.m_status = status_t.move_ok →
        move_to_async target s =
          outcome.raised (exception_t.ctor error_t.interface_sync_error) s) ∧
      (s.m_status = status_t.error →
        move_to_async target s = outcome.raised s.m_error s) ∧
      (s.m_status = status_t.idle → s.m_command = command_t.none →
        move_to_async target s =
          outcome.returned { s with m_command := command_t.move, m_command_param := target }) := by
  refine ⟨?_, ?_, ?_⟩
  · rintro (h | h) <;>
      simp [move_to_async, check_error_and_throw, check_not_idle_and_throw, h]
  · intro h
    simp [move_to_async, check_error_and_throw, h]
  · intro h hc
    simp [move_to_async, check_error_and_throw, check_not_idle_and_throw, h, hc]

/-- C1 amended, at concrete states: `half_threshold_state` (status `moving`),
`timed_out_state` (status `error`) and a fresh coordinator (status `idle`,
slot empty). -/
theorem move_to_async_contract_witness :
    (half_threshold_state.m_status = status_t.moving ∧
        move_to_async 7 half_threshold_state =
          outcome.raised (exception_t.ctor error_t.interface_sync_error) half_threshold_state) ∧
      (timed_out_state.m_status = status_t.error ∧
        move_to_async 7 timed_out_state =
          outcome.raised timed_out_state.m_error timed_out_state) ∧
      ((State.init 100 1000 1).m_status = status_t.idle ∧
        (State.init 100 1000 1).m_command = command_t.none ∧
        move_to_async 7 (State.init 100 1000 1) =
          outcome.returned
            { State.init 100 1000 1 with
              m_command := command_t.move, m_command_param := 7 }) :=
  have hm : half_threshold_state.m_status = status_t.moving := by
    rw [half_threshold_state_eq]
  have he : timed_out_state.m_status = status_t.error := by
    rw [timed_out_state_eq]
  ⟨⟨hm, (move_to_async_contract half_threshold_state 7).1 (Or.inl hm)⟩,
    ⟨he, (move_to_async_contract timed_out_state 7).2.1 he⟩,
    ⟨rfl, rfl, (move_to_async_contract (State.init 100 1000 1) 7).2.2 rfl rfl⟩⟩

/-! ## `wait_for_moving_done` -/

/-- C3: `wait_for_moving_done` in a state whose status is terminal. With
status `move_ok` it returns normally and the only change is that the status
becomes `idle`. With status `error` it throws exactly the latched exception
`m_error` and changes nothing. In both cases the command slot, the command
parameter, `m_paused` and the two cached positions are unchanged. -/
theorem wait_for_moving_done_terminal (s : State) :
    (s.m_status = status_t.move_ok →
        wait_for_moving_done s = outcome.returned { s with m_status := status_t.idle }) ∧
      (s.m_status = status_t.error →
        wait_for_moving_done s = outcome.raised s.m_error s ∧
          (wait_for_moving_done s).state.m_status = status_t.error ∧
          (wait_for_moving_done s).state.m_error = s.m_error) ∧
      (s.m_status = status_t.move_ok ∨ s.m_status = status_t.error →
        (wait_for_moving_done s).state.m_command = s.m_command ∧
          (wait_for_moving_done s).state.m_command_param = s.m_command_param ∧
          (wait_for_moving_done s).state.m_paused = s.m_paused ∧
          (wait_for_moving_done s).state.m_target_position = s.m_target_position ∧
          (wait_for_moving_done s).state.m_actual_position = s.m_actual_position) := by
  refine ⟨?_, ?_, ?_⟩
  · intro h
    simp [wait_for_moving_done, h]
  · intro h
    simp [wait_for_moving_done, h, outcome.state]
  · rintro (h | h) <;> simp [wait_for_moving_done, h, outcome.state]

/-- C3 at two concrete states: `arrived_state` (status `move_ok`) and
`timed_out_state` (status `error`). -/
theorem wait_for_moving_done_terminal_witness :
    (arrived_state.m_status = status_t.move_ok ∧
        wait_for_moving_done arrived_state =
          outcome.returned { arrived_state with m_status := status_t.idle }) ∧
      (timed_out_state.m_status = status_t.error ∧
        wait_for_moving_done timed_out_state =
          outcome.raised timed_out_state.m_error timed_out_state) :=
  have ha : arrived_state.m_status = status_t.move_ok := by
    rw [arrived_state_eq]
  have he : timed_out_state.m_status = status_t.error := by
    rw [timed_out_state_eq]
  ⟨⟨ha, (wait_for_moving_done_terminal arrived_state).1 ha⟩,
    ⟨he, ((wait_for_moving_done_terminal timed_out_state).2.1 he).1⟩⟩


/-! ## `release_async_move_interface` -/

/-- C7 as stated fails: in `paused_state` (`m_paused` is true) the dispatch of
`move` with target 50 at clock reading 7 leaves `m_paused` true and leaves the
recorded begin time at 0 instead of stamping it with 7. -/
theorem dispatch_move_paused_keeps_paused :
    paused_state.m_paused = true ∧
      (dispatch command_t.move 50 7 paused_state).state.m_paused = true ∧
      (dispatch command_t.move 50 7 paused_state).state.m_command_begin_time_point = 0 ∧
      (dispatch command_t.move 50 7 paused_state).state.m_command_begin_time_point ≠ 7 := by
  rw [paused_state_eq]
  simp [dispatch, State.init]

/-- C7 amended: for every state, target and clock reading, the dispatch of
`move` stores the target as the target position, sets the status to `moving`
and leaves `m_paused` as it was. Exactly when `m_paused` was false before the
dispatch it stamps the begin time with the clock reading and calls the driver's
`move_to_impl` with the target; when `m_paused` was true it makes no driver
call and leaves the begin time unchanged. Nothing else changes. -/
theorem dispatch_move_contract (s : State) (target : ℚ) (now : ℤ) :
    (dispatch command_t.move target now s).state.m_target_position = target ∧
      (dispatch command_t.move target now s).state.m_status = status_t.moving ∧
      (dispatch command_t.move target now s).state.m_paused = s.m_paused ∧
      (dispatch command_t.move target now s).quit = false ∧
      (s.m_paused = false →
        (dispatch command_t.move target now s).calls = [driver_call.move_to_impl target] ∧
          (dispatch command_t.move target now s).state =
            { s with
              m_target_position := target
              m_command_begin_time_point := now
              m_status := status_t.moving }) ∧
      (s.m_paused = true →
        (dispatch command_t.move target now s).calls = [] ∧
          (dispatch command_t.move target now s).state =
            { s with m_target_position := target, m_status := status_t.moving }) := by
  cases h : s.m_paused <;> simp [dispatch, h]

/-- C7 amended, at a fresh coordinator (`m_paused` false) and at
`paused_state` (`m_paused` true). -/
theorem dispatch_move_contract_witness :
    ((State.init 100 1000 1).m_paused = false ∧
        (dispatch command_t.move 50 7 (State.init 100 1000 1)).calls =
          [driver_call.move_to_impl 50]) ∧
      (paused_state.m_paused = true ∧
        (dispatch command_t.move 50 7 paused_state).calls = []) :=
  have hp : paused_state.m_paused = true := by
    rw [paused_state_eq]
  ⟨⟨rfl, ((dispatch_move_contract (State.init 100 1000 1) 50 7).2.2.2.2.1 rfl).1⟩,
    ⟨hp, ((dispatch_move_contract paused_state 50 7).2.2.2.2.2 hp).1⟩⟩


/-! ## Loop iterations that take no command -/

theorem run_iteration_none (inp : tick_input) (s : State)
    (hc : s.m_command = command_t.none) :
    run_iteration inp s =
      { state := check_arrival inp.position inp.now_check
          { s with m_actual_position := inp.position }
        calls := [driver_call.get_position_impl]
        quit := false } := by
  cases s
  simp_all [run_iteration, dispatch]

theorem check_arrival_not_moving (p : ℚ) (now : ℤ) (s : State)
    (h : ¬ (s.m_status = status_t.moving ∧ s.m_paused = false)) :
    check_arrival p now s = s := by
  unfold check_arrival
  rw [if_neg]
  simpa using h

/-- C5, evaluated on the code: the coordinator was built with distance
threshold 1/2; in `half_threshold_state` (status `moving`, target 0) a loop
iteration in which the driver reports position 3/4 changes the status to
`move_ok` and caches 3/4 as the actual position, although
|target - actual| = 3/4 is not below the threshold 1/2 given at construction:
the check compares against the literal 1. -/
theorem run_iteration_move_ok_ignores_distance_threshold :
    half_threshold_state.m_distance_threshold = 1 / 2 ∧
      half_threshold_state.m_status = status_t.moving ∧
      (run_iteration ⟨3 / 4, 0, 0⟩ half_threshold_state).state.m_status = status_t.move_ok ∧
      (run_iteration ⟨3 / 4, 0, 0⟩ half_threshold_state).state.m_actual_position = 3 / 4 ∧
      ¬ |(run_iteration ⟨3 / 4, 0, 0⟩ half_threshold_state).state.m_target_position -
            (run_iteration ⟨3 / 4, 0, 0⟩ half_threshold_state).state.m_actual_position| <
          half_threshold_state.m_distance_threshold := by
  have hrun : (run_iteration ⟨3 / 4, 0, 0⟩ half_threshold_state).state =
      { half_threshold_state with
        m_actual_position := 3 / 4
        m_status := status_t.move_ok } := by
    rw [half_threshold_state_eq]
    simp [run_iteration, dispatch, check_arrival, State.init, arrival_threshold]
    norm_num [abs_lt]
  rw [hrun, half_threshold_state_eq]
  norm_num [State.init, abs_lt]


/-! ## Pause -/

theorem run_iteration_paused_none (inp : tick_input) (s : State)
    (hc : s.m_command = command_t.none) (hp : s.m_paused = true) :
    (run_iteration inp s).state = { s with m_actual_position := inp.position } := by
  rw [run_iteration_none inp s hc]
  exact check_arrival_not_moving _ _ _ (by simp [hp])

theorem run_ticks_paused_none (inps : List tick_input) (s : State)
    (hc : s.m_command = command_t.none) (hp : s.m_paused = true) :
    (run_ticks s inps).m_command = command_t.none ∧
      (run_ticks s inps).m_paused = true ∧
      (run_ticks s inps).m_status = s.m_status ∧
      (run_ticks s inps).m_error = s.m_error := by
  induction inps generalizing s with
  | nil => exact ⟨hc, hp, rfl, rfl⟩
  | cons inp rest ih =>
    have hstep : run_ticks s (inp :: rest) = run_ticks (run_iteration inp s).state rest := rfl
    rw [hstep, run_iteration_paused_none inp s hc hp]
    exact ih _ hc hp

/-- C10: for every state whose command slot holds `pause`, every driver
position and every clock reading, the whole loop iteration that takes the
`pause` calls the driver's `pause_impl` (and then only reads the position),
ends with `m_paused` true and the slot empty, and leaves the status and the
latched exception as they were before the iteration; after any number of
following loop iterations with no command published in between, `m_paused` is
still true and the status and the latched exception are still those from
before the pause, whatever positions and clock readings the iterations see. -/
theorem run_iteration_pause_keeps_status (s : State) (inp : tick_input)
    (hc : s.m_command = command_t.pause) :
    (run_iteration inp s).calls =
        [driver_call.pause_impl, driver_call.get_position_impl] ∧
      (run_iteration inp s).state.m_paused = true ∧
      (run_iteration inp s).state.m_status = s.m_status ∧
      (run_iteration inp s).state.m_error = s.m_error ∧
      ∀ inps : List tick_input,
        (run_ticks (run_iteration inp s).state inps).m_paused = true ∧
          (run_ticks (run_iteration inp s).state inps).m_status = s.m_status ∧
          (run_ticks (run_iteration inp s).state inps).m_error = s.m_error := by
  have hrun : run_iteration inp s =
      { state := { s with
          m_command := command_t.none
          m_paused := true
          m_actual_position := inp.position }
        calls := [driver_call.pause_impl, driver_call.get_position_impl]
        quit := false } := by
    simp only [run_iteration, hc, dispatch]
    simp [check_arrival]
  rw [hrun]
  refine ⟨rfl, rfl, rfl, rfl, ?_⟩
  intro inps
  have h := run_ticks_paused_none inps
    { s with
      m_command := command_t.none
      m_paused := true
      m_actual_position := inp.position } rfl rfl
  exact ⟨h.2.1, h.2.2.1, h.2.2.2⟩

/-- C10 at `pause_pending_state` (status `moving`, target 50, begin time 0,
timeout 1000 ms): the loop iteration that takes the `pause` sees the driver at
the target and the clock at 2000 ms, and so do two following iterations; the
status is still `moving`. -/
theorem run_iteration_pause_keeps_status_witness :
    pause_pending_state.m_command = command_t.pause ∧
      pause_pending_state.m_status = status_t.moving ∧
      (run_iteration ⟨50, 0, 2000000000⟩ pause_pending_state).calls =
        [driver_call.pause_impl, driver_call.get_position_impl] ∧
      (run_iteration ⟨50, 0, 2000000000⟩ pause_pending_state).state.m_paused = true ∧
      (run_iteration ⟨50, 0, 2000000000⟩ pause_pending_state).state.m_status =
        status_t.moving ∧
      (run_ticks (run_iteration ⟨50, 0, 2000000000⟩ pause_pending_state).state
        [⟨50, 0, 2000000000⟩, ⟨50, 0, 3000000000⟩]).m_status = status_t.moving :=
  have hc : pause_pending_state.m_command = command_t.pause := by
    simp [pause_pending_state_eq]
  have hs : pause_pending_state.m_status = status_t.moving := by
    simp [pause_pending_state_eq]
  have h := run_iteration_pause_keeps_status pause_pending_state ⟨50, 0, 2000000000⟩ hc
  ⟨hc, hs, h.1, h.2.1, h.2.2.1.trans hs,
    (h.2.2.2.2 [⟨50, 0, 2000000000⟩, ⟨50, 0, 3000000000⟩]).2.1.trans hs⟩


/-! ## Executions -/

end async_motor_t
